import Mathlib

/-!
Verification of `examples_ltnw/multilabel_classification_axiomatized.py`.

The script draws `nr_samples` points uniformly in the unit square, splits
them into two geometric classes by squared distance to the center
`(0.5, 0.5)` against the threshold `0.09`, truncates both classes to the
smaller class's length, registers predicates, variables, formulas and
constants with the `ltnw` wrapper, trains, and queries.

We embed the points as pairs of rationals, the sample array as a list of
points (the generated array is an arbitrary input, since it comes from a
random number generator), and the sequence of wrapper calls as an explicit
trace of events.  NumPy boolean-mask selection `data[np.where(cond)]`
keeps exactly the rows satisfying `cond`, in their original order, which
is `List.filter`; the slice `x[:m, :]` is `List.take m`.  The tuple
assignment on line 16 of the source evaluates the whole right-hand side
before rebinding, so both truncations use the lengths of the untruncated
class arrays.
-/

/-- A 2-D sample point, embedded with exact rational coordinates. -/
abbrev Point := ℚ × ℚ

/-- `np.sum(np.square(p - [.5, .5]))`: squared Euclidean distance from the
point `p` to the center `(0.5, 0.5)`. -/
def sqDistToCenter (p : Point) : ℚ :=
  (p.1 - 1/2) ^ 2 + (p.2 - 1/2) ^ 2

/-- Membership mask for `data_A`: `np.sum(np.square(data-[.5,.5]),axis=1) < .09`. -/
def inA (p : Point) : Bool :=
  decide (sqDistToCenter p < 9/100)

/-- Membership mask for `data_B`: `np.sum(np.square(data-[.5,.5]),axis=1) >= .09`. -/
def inB (p : Point) : Bool :=
  decide (9/100 ≤ sqDistToCenter p)

/-- Line 14 of the source: `data_A = data[np.where(... < .09)]`
before the truncation on line 16. -/
def dataAPre (data : List Point) : List Point :=
  data.filter inA

/-- Line 15 of the source: `data_B = data[np.where(... >= .09)]`
before the truncation on line 16. -/
def dataBPre (data : List Point) : List Point :=
  data.filter inB

/-- Line 16 of the source:
`data_A, data_B = data_A[:min(len(data_A),len(data_B)),:], data_B[:min(len(data_A),len(data_B)),:]`.
The right-hand side is evaluated in full before the rebinding, so both
slices use the pre-truncation lengths. -/
def balance (data : List Point) : List Point × List Point :=
  let dA := dataAPre data
  let dB := dataBPre data
  (dA.take (min dA.length dB.length), dB.take (min dA.length dB.length))

/-- One call into the `ltnw` wrapper, as issued by the script. -/
inductive LtnwEvent where
  | predDecl (name : String) (numberOfFeatures : Nat)
  | varDecl (name : String) (value : List Point)
  | formulaDecl (expression : String)
  | initKB (satLevelThreshold : ℚ)
  | trainEvt (maxIterations : Nat)
  | askEvt (expression : String)
  | constDecl (name : String) (value : List ℚ)
  deriving DecidableEq

/-- Final state of one run of the script: the sample arrays it holds and
the full trace of wrapper calls, in program order. -/
structure ScriptState where
  data : List Point
  data_A : List Point
  data_B : List Point
  data_test : List Point
  trace : List LtnwEvent

/-- The whole script, as a function of the two arrays produced by
`np.random.uniform` (lines 13 and 49 of the source).  Every `ltnw` call is
recorded in order; plotting and printing touch no script state. -/
def runScript (data data_test : List Point) : ScriptState :=
  let balanced := balance data
  let data_A := balanced.1
  let data_B := balanced.2
  { data := data
    data_A := data_A
    data_B := data_B
    data_test := data_test
    trace :=
      [ .predDecl "A" 2
      , .predDecl "B" 2
      , .varDecl "?data_A" data_A
      , .varDecl "?data_B" data_B
      , .varDecl "?data" data
      , .formulaDecl "forall ?data_A: A(?data_A)"
      , .formulaDecl "forall ?data_B: B(?data_B)"
      , .formulaDecl "forall ?data: A(?data) -> ~B(?data)"
      , .formulaDecl "forall ?data: ~B(?data) -> A(?data)"
      , .initKB (1/10)
      , .trainEvt 20000
      , .askEvt "A(?data)"
      , .askEvt "B(?data)"
      , .varDecl "?data_test" data_test
      , .askEvt "A(?data_test)"
      , .askEvt "B(?data_test)"
      , .constDecl "a" [1/2, 1/2]
      , .constDecl "b" [3/4, 3/4]
      , .askEvt "A(a)"
      , .askEvt "A(b)"
      , .askEvt "B(a)"
      , .askEvt "B(b)" ] }

/-- Recognizes `ltnw.formula(...)` calls in the trace. -/
def isFormulaEvt : LtnwEvent → Bool
  | .formulaDecl _ => true
  | _ => false

/-- Recognizes `ltnw.predicate(...)` calls in the trace. -/
def isPredDecl : LtnwEvent → Bool
  | .predDecl _ _ => true
  | _ => false

/-- Recognizes `ltnw.variable(...)` calls in the trace. -/
def isVarDecl : LtnwEvent → Bool
  | .varDecl _ _ => true
  | _ => false

/-- The formula strings submitted to the wrapper, in order. -/
def formulaStrings (tr : List LtnwEvent) : List String :=
  tr.filterMap fun e =>
    match e with
    | .formulaDecl s => some s
    | _ => none

/-- The two masks are complementary: a point is outside the circle
exactly when it is not inside. -/
theorem inB_eq_not_inA (p : Point) : inB p = ! inA p := by
  by_cases h : sqDistToCenter p < 9/100 <;>
    simp [inA, inB, h, le_of_not_lt, not_le.mpr]

/-- Every sample lands in exactly one pre-truncation class, so the
pre-truncation class sizes sum to the sample count. -/
theorem dataAPre_length_add_dataBPre_length (data : List Point) :
    (dataAPre data).length + (dataBPre data).length = data.length := by
  induction data with
  | nil => rfl
  | cons p t ih =>
    simp only [dataAPre, dataBPre, List.filter] at ih ⊢
    rw [inB_eq_not_inA p]
    cases h : inA p <;> simp <;> omega

/-- C1: after the line-16 truncation the two class arrays have equal
length, namely the minimum of the two pre-truncation class sizes. -/
theorem balance_lengths_eq (data : List Point) :
    (balance data).1.length = (balance data).2.length := by
  simp only [balance, List.length_take]
  omega

/-- C2: every point kept in `data_A` has squared distance to the center
strictly below `0.09`, every point kept in `data_B` has squared distance
at least `0.09`, and a sample sitting exactly on the boundary value
`0.09` is filtered into the B class and not into the A class. -/
theorem balance_class_membership (data : List Point) :
    (∀ p ∈ (balance data).1, sqDistToCenter p < 9/100) ∧
    (∀ p ∈ (balance data).2, 9/100 ≤ sqDistToCenter p) ∧
    (∀ p ∈ data, sqDistToCenter p = 9/100 →
      p ∈ dataBPre data ∧ p ∉ dataAPre data) := by
  refine ⟨?_, ?_, ?_⟩
  · intro p hp
    have hmem : p ∈ dataAPre data := List.mem_of_mem_take hp
    have := (List.mem_filter.mp hmem).2
    exact of_decide_eq_true this
  · intro p hp
    have hmem : p ∈ dataBPre data := List.mem_of_mem_take hp
    have := (List.mem_filter.mp hmem).2
    exact of_decide_eq_true this
  · intro p hp hdist
    constructor
    · exact List.mem_filter.mpr ⟨hp, by simp [inB, hdist]⟩
    · intro hmem
      have := (List.mem_filter.mp hmem).2
      have hlt : sqDistToCenter p < 9/100 := of_decide_eq_true this
      rw [hdist] at hlt
      exact lt_irrefl _ hlt

/-- C2 witness: applying the membership theorem to a concrete sample
array holding the center point and a boundary point. -/
theorem balance_class_membership_witness :
    sqDistToCenter ((1:ℚ)/2, 1/2) < 9/100 ∧
    ((1/2 + 3/10, (1:ℚ)/2) ∈ dataBPre [((1:ℚ)/2, 1/2), (1/2 + 3/10, 1/2)] ∧
     (1/2 + 3/10, (1:ℚ)/2) ∉ dataAPre [((1:ℚ)/2, 1/2), (1/2 + 3/10, 1/2)]) := by
  constructor
  · exact (balance_class_membership [((1:ℚ)/2, 1/2), (1/2 + 3/10, 1/2)]).1
      ((1:ℚ)/2, 1/2) (by norm_num [balance, dataAPre, dataBPre, inA, inB, sqDistToCenter,
        List.filter, List.take])
  · exact (balance_class_membership [((1:ℚ)/2, 1/2), (1/2 + 3/10, 1/2)]).2.2
      (1/2 + 3/10, (1:ℚ)/2) (by norm_num)
      (by norm_num [sqDistToCenter])

/-- C3: the truncated class sizes sum to twice the minimum pre-truncation
class size, never exceed the sample count, and exhaust the sample count
exactly when the two classes were equal before truncation. -/
theorem balance_sum_lengths (data : List Point) :
    (balance data).1.length + (balance data).2.length
        = 2 * min (dataAPre data).length (dataBPre data).length ∧
    (balance data).1.length + (balance data).2.length ≤ data.length ∧
    ((balance data).1.length + (balance data).2.length = data.length ↔
      (dataAPre data).length = (dataBPre data).length) := by
  have hsum := dataAPre_length_add_dataBPre_length data
  simp only [balance, List.length_take]
  omega

/-- C4: the truncation keeps each filtered subsequence's prefix of length
the smaller class size — `data_A` and `data_B` are initial segments of
the order-preserving filters of `data`, with no reordering. -/
theorem balance_preserves_order (data : List Point) :
    (balance data).1
        = (dataAPre data).take
            (min (dataAPre data).length (dataBPre data).length) ∧
    (balance data).2
        = (dataBPre data).take
            (min (dataAPre data).length (dataBPre data).length) ∧
    (∃ rest, dataAPre data = (balance data).1 ++ rest) ∧
    (∃ rest, dataBPre data = (balance data).2 ++ rest) := by
  refine ⟨rfl, rfl, ?_, ?_⟩
  · exact ⟨(dataAPre data).drop (min (dataAPre data).length (dataBPre data).length),
      (List.take_append_drop _ _).symm⟩
  · exact ⟨(dataBPre data).drop (min (dataAPre data).length (dataBPre data).length),
      (List.take_append_drop _ _).symm⟩

/-- C5: before the first `ltnw.formula(...)` call the script has issued
exactly two predicate registrations (named `A` and `B`, each over 2-D
points) and exactly three variable bindings (`?data_A`, `?data_B`,
`?data`), and nothing else. -/
theorem registrations_before_axioms (data data_test : List Point) :
    (runScript data data_test).trace.takeWhile (fun e => ! isFormulaEvt e)
      = [ .predDecl "A" 2
        , .predDecl "B" 2
        , .varDecl "?data_A" (balance data).1
        , .varDecl "?data_B" (balance data).2
        , .varDecl "?data" data ] ∧
    ((runScript data data_test).trace.takeWhile
        (fun e => ! isFormulaEvt e)).countP isPredDecl = 2 ∧
    ((runScript data data_test).trace.takeWhile
        (fun e => ! isFormulaEvt e)).countP isVarDecl = 3 := by
  refine ⟨rfl, ?_, ?_⟩ <;> rfl

/-- C6: the complete run submits exactly four formulas, in source order:
the two membership axioms, exclusion, and converse-exclusion. -/
theorem axioms_exactly_four (data data_test : List Point) :
    formulaStrings (runScript data data_test).trace
      = [ "forall ?data_A: A(?data_A)"
        , "forall ?data_B: B(?data_B)"
        , "forall ?data: A(?data) -> ~B(?data)"
        , "forall ?data: ~B(?data) -> A(?data)" ] := by
  rfl

/-- C7: the filter-and-truncate step is a pure function of the sample
array, the threshold and the center being fixed in the code: two runs on
the same input produce the same `data_A` and the same `data_B`. -/
theorem balance_deterministic (run1Input run2Input : List Point)
    (h : run1Input = run2Input) :
    (balance run1Input).1 = (balance run2Input).1 ∧
    (balance run1Input).2 = (balance run2Input).2 := by
  rw [h]
  exact ⟨rfl, rfl⟩

/-- C7 witness: two runs on a concrete two-point sample array agree. -/
theorem balance_deterministic_witness :
    (balance [((1:ℚ)/2, 1/2), (0, 0)]).1 = (balance [((1:ℚ)/2, 1/2), (0, 0)]).1 ∧
    (balance [((1:ℚ)/2, 1/2), (0, 0)]).2 = (balance [((1:ℚ)/2, 1/2), (0, 0)]).2 :=
  balance_deterministic [((1:ℚ)/2, 1/2), (0, 0)] [((1:ℚ)/2, 1/2), (0, 0)] rfl

/-- C8: the sample array `data` held at the end of the run is exactly the
array produced by the generator on line 13 — filtering, balancing,
training, querying and plotting never modify it (NumPy fancy indexing
copies rows; no statement writes into `data`). -/
theorem data_never_modified (data data_test : List Point) :
    (runScript data data_test).data = data :=
  rfl

/-- C9: when either geometric class is empty before truncation, the
minimum class size is zero, so the truncation empties both arrays. -/
theorem balance_degenerate_both_empty (data : List Point)
    (h : dataAPre data = [] ∨ dataBPre data = []) :
    (balance data).1 = [] ∧ (balance data).2 = [] := by
  rcases h with h | h <;> simp [balance, h]

/-- C9 witness: a sample array entirely inside the circle has an empty B
class, and balancing then empties the A class as well. -/
theorem balance_degenerate_both_empty_witness :
    (dataAPre [((1:ℚ)/2, 1/2)] = [] ∨ dataBPre [((1:ℚ)/2, 1/2)] = []) ∧
    (balance [((1:ℚ)/2, 1/2)]).1 = [] ∧ (balance [((1:ℚ)/2, 1/2)]).2 = [] := by
  have h : dataAPre [((1:ℚ)/2, 1/2)] = [] ∨ dataBPre [((1:ℚ)/2, 1/2)] = [] := by
    right
    norm_num [dataBPre, inB, sqDistToCenter, List.filter]
  exact ⟨h, balance_degenerate_both_empty [((1:ℚ)/2, 1/2)] h⟩

/-- C10: the run registers constant `a = (0.5, 0.5)` and constant
`b = (0.75, 0.75)`; in exact rational arithmetic `a` has squared distance
`0 < 0.09` to the center (inside the A region) and `b` has squared
distance `0.125 ≥ 0.09` (outside it). -/
theorem probe_constants_straddle_boundary (data data_test : List Point) :
    LtnwEvent.constDecl "a" [1/2, 1/2] ∈ (runScript data data_test).trace ∧
    LtnwEvent.constDecl "b" [3/4, 3/4] ∈ (runScript data data_test).trace ∧
    sqDistToCenter (1/2, 1/2) = 0 ∧
    sqDistToCenter (1/2, 1/2) < 9/100 ∧
    sqDistToCenter (3/4, 3/4) = 1/8 ∧
    9/100 ≤ sqDistToCenter (3/4, 3/4) ∧
    inA (1/2, 1/2) = true ∧
    inB (3/4, 3/4) = true := by
  refine ⟨?_, ?_, ?_, ?_, ?_, ?_, ?_, ?_⟩
  · simp [runScript]
  · simp [runScript]
  · norm_num [sqDistToCenter]
  · norm_num [sqDistToCenter]
  · norm_num [sqDistToCenter]
  · norm_num [sqDistToCenter]
  · norm_num [inA, sqDistToCenter]
  · norm_num [inB, sqDistToCenter]
